import Mathlib

/-!
Verification development for the sssftp remote file browser.

The embedding follows the two source files: `tui.go` (the directory
navigation model, item-list construction and the download routine) and the
SSH connection/key-loading file (`signerFromPem`, `parsePemBlock`,
`RunCommand`).  External collaborators (the sftp client, the crypto/pem
library, the ssh session, the local filesystem) are modelled at their
documented interface boundary; fallible Go calls are modelled Go-style as
a pair of a result (the zero value on error) and an optional error.

The repository's `handleError` function is not among the provided source
files (only its call sites are).  Following the specification's
propagation policy, it is modelled as surfacing the error and returning,
so that failures during interactive navigation and download are
recoverable; in the embedding it is therefore a no-op on state, and each
call site simply continues with the zero value produced by the failing
call, exactly as the Go control flow does.
-/

namespace Sssftp

/-- One remote directory-listing record: the projection of `fs.FileInfo`
that `tui.go` reads (`Name`, `IsDir`, `Size`, `ModTime`, `Mode`). -/
structure RemoteEntry where
  name : String
  isDir : Bool
  size : Nat
  modTime : String
  mode : String
deriving DecidableEq, Repr

/-- The list item of `tui.go`: a rendered title, a description line and the
underlying `fs.FileInfo` record; `rawValue = none` marks the synthetic
parent entry (the Go code stores a nil `fs.FileInfo`). -/
structure Item where
  title : String
  description : String
  rawValue : Option RemoteEntry
deriving DecidableEq, Repr

/-- Modelled from the spec: visual styling is out of scope (decoration
only), so the lipgloss render functions are modelled as returning the text
content itself. -/
def dirItemStyle (s : String) : String := s

/-- Modelled from the spec: visual styling is out of scope (decoration
only). -/
def fileItemStyle (s : String) : String := s

/-- Modelled from the spec: visual styling is out of scope (decoration
only). -/
def statusMessageStyle (s : String) : String := s

/-- Modelled from the spec: icon lookup by file extension is an
out-of-scope decoration collaborator; it is modelled as a fixed icon. -/
def getIcon (_e : RemoteEntry) : String := ""

/-- `getDecorations` of `tui.go`: the icon and the status line (mod time,
permission string, human-readable size).  The size formatting is
decoration only; the status line is modelled as the undecorated fields. -/
def getDecorations (e : RemoteEntry) : String × String :=
  (getIcon e, e.modTime ++ " " ++ e.mode ++ " " ++ toString e.size)

/-- The sftp client, an external collaborator modelled at its interface
boundary.  Each fallible call returns Go-style a pair of the result and an
optional error message; the result component is the Go zero value when the
error component is set. -/
structure SftpClient where
  join : String → String → String
  realPath : String → String × Option String
  readDir : String → List RemoteEntry × Option String

/-- The synthetic parent entry inserted by `createItemListModel`: title
".." and a nil underlying file record. -/
def parentItem : Item :=
  { title := dirItemStyle "..", description := "", rawValue := none }

/-- Decoration of one listing record into an `Item`, as in the loop body
of `createItemListModel`. -/
def decorateItem (e : RemoteEntry) : Item :=
  let d := getDecorations e
  { title := d.1 ++ " " ++ (if e.isDir then dirItemStyle e.name else fileItemStyle e.name)
    description := d.2
    rawValue := some e }

/-- `createItemListModel` of `tui.go`: list the directory (a failed
`ReadDir` is passed to `handleError` and yields the zero value, the empty
listing), then build the item list with the synthetic parent entry first. -/
def createItemListModel (dirPath : String) (sftpClient : SftpClient) : List Item :=
  let r := sftpClient.readDir dirPath
  parentItem :: r.1.map decorateItem

/-- The navigation-relevant projection of the `model` struct of `tui.go`:
the current remote directory and the displayed item list, plus the list
widget's selection index.  Transient status messages and the progress bar
are commands emitted to the UI loop, not navigation state. -/
structure Model where
  currentDir : String
  items : List Item
  selectedIndex : Nat
deriving DecidableEq, Repr

/-- The commands (`tea.Cmd`) a handler emits to the UI loop. -/
inductive Effect where
  | setItems : List Item → Effect
  | statusMessage : String → Effect
  | toggleSpinner : Effect
  | incrPercent : Effect
  | quit : Effect
deriving DecidableEq, Repr

/-- `moveDir` of `tui.go`: resolve the canonical target path with
`RealPath(Join(currentDir, selectedItemName))` (a failure is passed to
`handleError` and leaves the zero value ""), assign it to `currentDir`,
replace the item list with a fresh listing of that path, and emit the
"Entered" status message. -/
def moveDir (sftpClient : SftpClient) (m : Model) (selectedItemName : String) :
    Model × List Effect :=
  let r := sftpClient.realPath (sftpClient.join m.currentDir selectedItemName)
  let currentWd := r.1
  let newItems := createItemListModel currentWd sftpClient
  ({ m with currentDir := currentWd, items := newItems },
   [Effect.setItems newItems,
    Effect.statusMessage (statusMessageStyle ("Entered " ++ selectedItemName))])

/-- The local filesystem of the process's current working directory: an
association of file names to byte contents. -/
def LocalFS : Type := List (String × List Nat)

/-- Write (create or overwrite) one local file. -/
def setFile (fs : LocalFS) (name : String) (content : List Nat) : LocalFS :=
  (name, content) :: (fs : List (String × List Nat)).filter (fun p => !(p.1 == name))

/-- Read one local file. -/
def lookupFile (fs : LocalFS) (name : String) : Option (List Nat) :=
  ((fs : List (String × List Nat)).find? (fun p => p.1 == name)).map Prod.snd

/-- The world the download routine acts on: the sftp client, the remote
file store (`Open` succeeds exactly on paths mapped to contents), the
local `os.Create` outcome per name, an injected copy fault (`some k`
means the stream fails after `k` bytes), and the local filesystem. -/
structure World where
  client : SftpClient
  remoteFile : String → Option (List Nat)
  createOk : String → Bool
  copyFault : Option Nat
  localFS : LocalFS

/-- `sftpClient.Open`, Go-style: the file handle (none on error, the nil
handle) and an optional error. -/
def sftpOpen (w : World) (p : String) : Option (List Nat) × Option String :=
  match w.remoteFile p with
  | some c => (some c, none)
  | none => (none, some "open remote file failed")

/-- `os.Create`, Go-style: the updated local filesystem (a successful
create truncates the file to empty), the destination handle (none on
error, the nil handle) and an optional error. -/
def osCreate (w : World) (name : String) : World × Option String × Option String :=
  if w.createOk name then
    ({ w with localFS := setFile w.localFS name [] }, some name, none)
  else
    (w, none, some "create local file failed")

/-- Outcome of a routine that can return or panic.  Reading from a nil
sftp file handle panics (the sftp library has no nil guard), while writing
to a nil `os.File` returns `ErrInvalid`. -/
inductive DlResult where
  | ret : World → Option String → DlResult
  | panics : World → DlResult

/-- `io.Copy(destFile, srcFile)` as invoked by `downloadFile`: with a nil
source handle the copy panics; with a nil destination handle the
`os.File` write returns the invalid-argument error; with both handles
valid the bytes are streamed, subject to the injected copy fault. -/
def ioCopy (w : World) (dst : Option String) (src : Option (List Nat)) : DlResult :=
  match src with
  | none => DlResult.panics w
  | some content =>
    match dst with
    | none => DlResult.ret w (some "invalid argument")
    | some name =>
      match w.copyFault with
      | none => DlResult.ret { w with localFS := setFile w.localFS name content } none
      | some k =>
          DlResult.ret { w with localFS := setFile w.localFS name (content.take k) }
            (some "copy failed")

/-- `filepath.Join(".", fileName)`: joining a name onto "." yields the
name itself, i.e. the file is placed in the current working directory. -/
def filepathJoinDot (fileName : String) : String := fileName

/-- `model.downloadFile` of `tui.go`: open the remote file at
`Join(filePath, fileName)` (the open error goes to `handleError`, not
into the return value), create the local destination in the current
working directory (the create error likewise goes to `handleError`), then
`io.Copy`; only the copy's error is returned. -/
def downloadFile (w : World) (filePath fileName : String) : DlResult :=
  let src := sftpOpen w (w.client.join filePath fileName)
  let created := osCreate w (filepathJoinDot fileName)
  ioCopy created.1 created.2.1 src.1

/-- The returned error of a download, when it returns at all. -/
def DlResult.retErr : DlResult → Option (Option String)
  | DlResult.ret _ e => some e
  | DlResult.panics _ => none

/-- The local filesystem after a download outcome. -/
def DlResult.fs : DlResult → LocalFS
  | DlResult.ret w _ => w.localFS
  | DlResult.panics w => w.localFS

/-- The UI messages `model.Update` of `tui.go` dispatches on. -/
inductive Msg where
  | key : String → Msg
  | windowSize : Nat → Nat → Msg
  | progressFrame : Msg
deriving DecidableEq, Repr

/-- Outcome of one `Update` step: the new world, the new model and the
emitted commands — or a panic propagated out of the download routine. -/
inductive UpdateResult where
  | ok : World → Model → List Effect → UpdateResult
  | panics : World → UpdateResult

/-- The model component of an update outcome. -/
def UpdateResult.modelOf : UpdateResult → Option Model
  | UpdateResult.ok _ m _ => some m
  | UpdateResult.panics _ => none

/-- The emitted commands of an update outcome. -/
def UpdateResult.effectsOf : UpdateResult → Option (List Effect)
  | UpdateResult.ok _ _ eff => some eff
  | UpdateResult.panics _ => none

/-- `model.Update` of `tui.go`.  "ctrl+c" quits; "backspace" is the
dedicated go-to-parent key (`moveDir` with ".."); "enter" inspects the
selected item: a nil `rawValue` is the synthetic parent entry and is
handled by `moveDir` with "..", a directory entry by `moveDir` with its
name, and a regular file by a "Downloading" status message, a spinner
toggle and a synchronous `downloadFile`; the enter handler then appends
the progress-bar increment.  Other messages are forwarded to the list
widget, which does not touch the navigation state. -/
def update (w : World) (m : Model) (msg : Msg) : UpdateResult :=
  match msg with
  | Msg.key s =>
    if s = "ctrl+c" then UpdateResult.ok w m [Effect.quit]
    else if s = "backspace" then
      let r := moveDir w.client m ".."
      UpdateResult.ok w r.1 r.2
    else if s = "enter" then
      match m.items[m.selectedIndex]? with
      | none => UpdateResult.panics w
      | some it =>
        match it.rawValue with
        | none =>
          let r := moveDir w.client m ".."
          UpdateResult.ok w r.1 (r.2 ++ [Effect.incrPercent])
        | some e =>
          if e.isDir then
            let r := moveDir w.client m e.name
            UpdateResult.ok w r.1 (r.2 ++ [Effect.incrPercent])
          else
            match downloadFile w m.currentDir e.name with
            | DlResult.panics w1 => UpdateResult.panics w1
            | DlResult.ret w1 _err =>
              UpdateResult.ok w1 m
                [Effect.statusMessage (statusMessageStyle ("Downloading " ++ e.name)),
                 Effect.toggleSpinner, Effect.incrPercent]
    else UpdateResult.ok w m []
  | Msg.windowSize _ _ => UpdateResult.ok w m []
  | Msg.progressFrame => UpdateResult.ok w m [Effect.toggleSpinner]

/-- Iterated go-to-parent transitions, for the idempotence claim. -/
def enterParentIter (sftpClient : SftpClient) : Nat → Model → Model
  | 0, m => m
  | Nat.succ n, m => enterParentIter sftpClient n (moveDir sftpClient m "..").1

/-- The three private-key structures the dispatch of `parsePemBlock` can
produce (PKCS1 RSA, EC, DSA); the payload abstracts the key material. -/
inductive PrivKey where
  | rsa : Nat → PrivKey
  | ec : Nat → PrivKey
  | dsa : Nat → PrivKey
deriving DecidableEq, Repr

/-- An ssh signing credential wrapping a parsed key. -/
structure Signer where
  key : PrivKey
deriving DecidableEq, Repr

/-- The parsed view of a PEM body: what each of the three type-specific
parsers would recover from the bytes (none when the bytes are not a valid
encoding of that key type). -/
structure KeyBody where
  asRSA : Option PrivKey
  asEC : Option PrivKey
  asDSA : Option PrivKey
deriving DecidableEq, Repr

/-- The decoded PEM block, the external `encoding/pem` collaborator's
output: the declared type tag, the stored body, whether the block is
passphrase-encrypted (`x509.IsEncryptedPEMBlock`), and, for an encrypted
block, the passphrase it was encrypted under together with the plaintext
body that the correct passphrase recovers. -/
structure PemBlock where
  blockType : String
  bytes : KeyBody
  encrypted : Bool
  correctPass : String
  decryptedBytes : KeyBody
deriving DecidableEq, Repr

/-- A key file as handed to `signerFromPem`: the `pem.Decode` view of its
bytes (none when no PEM block is found) and the `ssh.ParsePrivateKey`
view of the same raw bytes (the plain, unencrypted single-key reading;
none when they do not parse as a complete private key). -/
structure KeyFile where
  block : Option PemBlock
  plainParse : Option Signer
deriving DecidableEq, Repr

/-- `x509.DecryptPEMBlock`, modelled from its documented behaviour: the
correct passphrase recovers the plaintext body; an incorrect passphrase
fails with the incorrect-password error. -/
def decryptPEMBlock (b : PemBlock) (password : String) : Except String KeyBody :=
  if password = b.correctPass then Except.ok b.decryptedBytes
  else Except.error "x509: decryption password incorrect"

/-- `parsePemBlock` of the connection file: dispatch on the declared
block-type tag to the RSA, EC or DSA parser; an unrecognized tag is the
unsupported-key-type error. -/
def parsePemBlock (b : PemBlock) : Except String PrivKey :=
  if b.blockType = "RSA PRIVATE KEY" then
    match b.bytes.asRSA with
    | some k => Except.ok k
    | none => Except.error "parsing PKCS private key failed"
  else if b.blockType = "EC PRIVATE KEY" then
    match b.bytes.asEC with
    | some k => Except.ok k
    | none => Except.error "parsing EC private key failed"
  else if b.blockType = "DSA PRIVATE KEY" then
    match b.bytes.asDSA with
    | some k => Except.ok k
    | none => Except.error "parsing DSA private key failed"
  else Except.error ("parsing private key failed, unsupported key type " ++ b.blockType)

/-- `ssh.NewSignerFromKey`, modelled from its documented behaviour: the
three supported key structures all wrap into a signer. -/
def newSignerFromKey (k : PrivKey) : Except String Signer :=
  Except.ok { key := k }

/-- `signerFromPem` of the connection file: decode the PEM envelope (no
block is the no-key-found error); if the block is encrypted, decrypt it
with the supplied passphrase (failure is the decryption-failed error),
parse the decrypted body by type tag and wrap it in a signer; if the
block is not encrypted, parse the raw bytes directly with
`ssh.ParsePrivateKey`. -/
def signerFromPem (kf : KeyFile) (password : String) : Except String Signer :=
  match kf.block with
  | none => Except.error "pem decode failed, no key found"
  | some pemBlock =>
    if pemBlock.encrypted then
      match decryptPEMBlock pemBlock password with
      | Except.error e => Except.error ("decrypting PEM block failed " ++ e)
      | Except.ok body =>
        match parsePemBlock { pemBlock with bytes := body } with
        | Except.error e => Except.error e
        | Except.ok key =>
          match newSignerFromKey key with
          | Except.error e => Except.error ("creating signer from encrypted key failed " ++ e)
          | Except.ok signer => Except.ok signer
    else
      match kf.plainParse with
      | none => Except.error "parsing plain private key failed"
      | some signer => Except.ok signer

/-- What one remote command execution produces on the remote side:
its standard output, its standard error and its exit code. -/
structure RemoteExec where
  stdout : String
  stderr : String
  exitCode : Nat
deriving DecidableEq, Repr

/-- The ssh client collaborator: the remote behaviour of each command. -/
structure SshClient where
  exec : String → RemoteExec

/-- `ssh.Session.Output`, modelled from its documented behaviour: runs the
command and returns the bytes written to standard output, with an
exit-status error when the command exits non-zero. -/
def sessionOutput (client : SshClient) (cmd : String) : String × Option String :=
  let r := client.exec cmd
  (r.stdout, if r.exitCode = 0 then none else some ("exit status " ++ toString r.exitCode))

/-- Record of how `RunCommand` used its session: whether a pseudo-terminal
was requested (the `RequestPty` call is commented out in the source) and
whether the deferred close ran. -/
structure CmdTrace where
  ptyRequested : Bool
  sessionClosed : Bool
deriving DecidableEq, Repr

/-- `RunCommand` of the connection file: open one session, do not request
a pseudo-terminal, run the command through `Session.Output` and return the
captured bytes as a string together with the error; the deferred close
runs on exit. -/
def RunCommand (cmd : String) (sshClient : SshClient) :
    (String × Option String) × CmdTrace :=
  (sessionOutput sshClient cmd, { ptyRequested := false, sessionClosed := true })

/-! ## Helper lemmas -/

/-- The "enter" key on a selected entry whose raw record is nil runs the
same `moveDir ".."` transition as the dedicated key, then appends the
progress increment. -/
lemma update_enter_parent (w : World) (m : Model) (it : Item)
    (hsel : m.items[m.selectedIndex]? = some it)
    (hraw : it.rawValue = none) :
    update w m (Msg.key "enter") =
      UpdateResult.ok w (moveDir w.client m "..").1
        ((moveDir w.client m "..").2 ++ [Effect.incrPercent]) := by
  simp [update, hsel, hraw]

/-- The "enter" key on a selected directory entry runs `moveDir` with the
entry's name, then appends the progress increment. -/
lemma update_enter_dir (w : World) (m : Model) (it : Item) (e : RemoteEntry)
    (hsel : m.items[m.selectedIndex]? = some it)
    (hraw : it.rawValue = some e) (hdir : e.isDir = true) :
    update w m (Msg.key "enter") =
      UpdateResult.ok w (moveDir w.client m e.name).1
        ((moveDir w.client m e.name).2 ++ [Effect.incrPercent]) := by
  simp [update, hsel, hraw, hdir]

/-- The dedicated go-to-parent key runs `moveDir ".."`. -/
lemma update_backspace (w : World) (m : Model) :
    update w m (Msg.key "backspace") =
      UpdateResult.ok w (moveDir w.client m "..").1 (moveDir w.client m "..").2 := by
  simp [update]

/-- The state produced by `moveDir` replaces the current directory with
the `RealPath` result and the items with a fresh listing of it. -/
lemma moveDir_fst (sftpClient : SftpClient) (m : Model) (name : String) :
    (moveDir sftpClient m name).1 =
      { m with
        currentDir := (sftpClient.realPath (sftpClient.join m.currentDir name)).1,
        items := createItemListModel
          (sftpClient.realPath (sftpClient.join m.currentDir name)).1 sftpClient } := rfl

/-- Writing a file and reading it back yields the written content. -/
lemma lookupFile_setFile (fs : LocalFS) (name : String) (content : List Nat) :
    lookupFile (setFile fs name content) name = some content := by
  simp [lookupFile, setFile, List.find?]

/-! ## Claims about the key loader -/

/-- Claim C5: for every passphrase-encrypted key envelope and every
incorrect passphrase, `signerFromPem` fails with the decryption-failure
error and never returns a signer. -/
theorem c5_wrong_passphrase_fails (kf : KeyFile) (b : PemBlock) (password : String)
    (hb : kf.block = some b) (henc : b.encrypted = true)
    (hpw : password ≠ b.correctPass) :
    signerFromPem kf password =
      Except.error "decrypting PEM block failed x509: decryption password incorrect" ∧
    ∀ s : Signer, signerFromPem kf password ≠ Except.ok s := by
  have h1 : signerFromPem kf password =
      Except.error "decrypting PEM block failed x509: decryption password incorrect" := by
    simp [signerFromPem, hb, henc, decryptPEMBlock, hpw]
  refine ⟨h1, ?_⟩
  intro s h2
  rw [h1] at h2
  exact Except.noConfusion h2

/-- Encrypted RSA key fixture: the correct passphrase is "secret123". -/
def keyFileEnc : KeyFile :=
  { block := some
      { blockType := "RSA PRIVATE KEY"
        bytes := { asRSA := none, asEC := none, asDSA := none }
        encrypted := true
        correctPass := "secret123"
        decryptedBytes := { asRSA := some (PrivKey.rsa 7), asEC := none, asDSA := none } }
    plainParse := none }

/-- Witness for C5 at the encrypted fixture and the wrong passphrase. -/
theorem c5_witness :
    signerFromPem keyFileEnc "wrong" =
      Except.error "decrypting PEM block failed x509: decryption password incorrect" ∧
    ∀ s : Signer, signerFromPem keyFileEnc "wrong" ≠ Except.ok s :=
  c5_wrong_passphrase_fails keyFileEnc
    { blockType := "RSA PRIVATE KEY"
      bytes := { asRSA := none, asEC := none, asDSA := none }
      encrypted := true
      correctPass := "secret123"
      decryptedBytes := { asRSA := some (PrivKey.rsa 7), asEC := none, asDSA := none } }
    "wrong" rfl rfl (by decide)

/-- Claim C6: for every well-formed unencrypted key envelope,
`signerFromPem` returns the signer parsed directly from the raw bytes,
for every passphrase argument; the passphrase never causes failure. -/
theorem c6_unencrypted_ignores_passphrase (kf : KeyFile) (b : PemBlock) (s : Signer)
    (hb : kf.block = some b) (henc : b.encrypted = false)
    (hplain : kf.plainParse = some s) :
    ∀ password : String, signerFromPem kf password = Except.ok s := by
  intro password
  simp [signerFromPem, hb, henc, hplain]

/-- Unencrypted key fixture: the raw bytes parse as a complete key. -/
def keyFilePlain : KeyFile :=
  { block := some
      { blockType := "RSA PRIVATE KEY"
        bytes := { asRSA := some (PrivKey.rsa 5), asEC := none, asDSA := none }
        encrypted := false
        correctPass := ""
        decryptedBytes := { asRSA := none, asEC := none, asDSA := none } }
    plainParse := some { key := PrivKey.rsa 5 } }

/-- Witness for C6 at the unencrypted fixture and a non-empty passphrase. -/
theorem c6_witness :
    signerFromPem keyFilePlain "ignored passphrase" = Except.ok { key := PrivKey.rsa 5 } :=
  c6_unencrypted_ignores_passphrase keyFilePlain
    { blockType := "RSA PRIVATE KEY"
      bytes := { asRSA := some (PrivKey.rsa 5), asEC := none, asDSA := none }
      encrypted := false
      correctPass := ""
      decryptedBytes := { asRSA := none, asEC := none, asDSA := none } }
    { key := PrivKey.rsa 5 } rfl rfl rfl "ignored passphrase"

/-! ## Claims about the navigation state machine -/

/-- Claim C2: after a successful `SelectEntry` on a directory entry, the
new state's first item is the synthetic parent marker and the current
path is the canonical join (`RealPath` of `Join`) of the previous path
and the selected name. -/
theorem c2_select_directory (w : World) (m : Model) (it : Item) (e : RemoteEntry)
    (p : String) (l : List RemoteEntry)
    (hsel : m.items[m.selectedIndex]? = some it)
    (hraw : it.rawValue = some e)
    (hdir : e.isDir = true)
    (hreal : w.client.realPath (w.client.join m.currentDir e.name) = (p, none))
    (_hlist : w.client.readDir p = (l, none)) :
    ∃ m2 eff, update w m (Msg.key "enter") = UpdateResult.ok w m2 eff ∧
      m2.currentDir = p ∧ m2.items.head? = some parentItem := by
  refine ⟨(moveDir w.client m e.name).1, (moveDir w.client m e.name).2 ++ [Effect.incrPercent],
    update_enter_dir w m it e hsel hraw hdir, ?_, ?_⟩
  · rw [moveDir_fst, hreal]
  · rw [moveDir_fst]
    simp [createItemListModel]

/-- Navigation fixtures: a deterministic sftp client whose canonical
paths are the joined paths themselves. -/
def clientNav : SftpClient :=
  { join := fun p q => p ++ "/" ++ q
    realPath := fun p => (p, none)
    readDir := fun _ => ([], none) }

/-- A directory entry fixture. -/
def entryDocs : RemoteEntry :=
  { name := "docs", isDir := true, size := 0, modTime := "2022-01-01 00:00:00", mode := "drwxr-xr-x" }

/-- A navigation state at /home/user with the docs directory selected. -/
def modelNav : Model :=
  { currentDir := "/home/user", items := [parentItem, decorateItem entryDocs], selectedIndex := 1 }

/-- A world around the navigation fixture client. -/
def worldNav : World :=
  { client := clientNav, remoteFile := fun _ => none, createOk := fun _ => true,
    copyFault := none, localFS := [] }

/-- Witness for C2: selecting "docs" at /home/user lands on
/home/user/docs with the parent marker first. -/
theorem c2_witness :
    ∃ m2 eff, update worldNav modelNav (Msg.key "enter") = UpdateResult.ok worldNav m2 eff ∧
      m2.currentDir = "/home/user/docs" ∧ m2.items.head? = some parentItem :=
  c2_select_directory worldNav modelNav (decorateItem entryDocs) entryDocs
    "/home/user/docs" [] rfl rfl rfl rfl rfl

/-- Claim C3: at the remote root (where the canonical parent of the
current path is the current path itself) the go-to-parent transition
leaves the state unchanged, and so does any number of repetitions, so the
path never escapes above the root. -/
theorem c3_enter_parent_root_idempotent (sftpClient : SftpClient) (m : Model)
    (hroot : sftpClient.realPath (sftpClient.join m.currentDir "..") = (m.currentDir, none))
    (hitems : m.items = createItemListModel m.currentDir sftpClient) :
    (moveDir sftpClient m "..").1 = m ∧
    ∀ n, enterParentIter sftpClient n m = m := by
  have hstep : (moveDir sftpClient m "..").1 = m := by
    rw [moveDir_fst, hroot, ← hitems]
  refine ⟨hstep, ?_⟩
  intro n
  induction n with
  | zero => rfl
  | succ k ih =>
    show enterParentIter sftpClient k (moveDir sftpClient m "..").1 = m
    rw [hstep]
    exact ih

/-- Root fixture client: the canonical parent of the root is the root. -/
def clientRoot : SftpClient :=
  { join := fun p q => p ++ "/" ++ q
    realPath := fun p => if p = "//.." then ("/", none) else (p, none)
    readDir := fun _ => ([], none) }

/-- The consistent navigation state at the remote root. -/
def modelRoot : Model :=
  { currentDir := "/", items := createItemListModel "/" clientRoot, selectedIndex := 0 }

/-- Witness for C3 at the root fixture. -/
theorem c3_witness :
    (moveDir clientRoot modelRoot "..").1 = modelRoot ∧
    ∀ n, enterParentIter clientRoot n modelRoot = modelRoot :=
  c3_enter_parent_root_idempotent clientRoot modelRoot (by decide) rfl

/-- Claim C4: selecting a regular file leaves the navigation state
(current path and items) unchanged: the handler hands the current path
and the entry name to the download routine, emits the transient
"Downloading" status message with the spinner and progress commands, and
returns the same model. -/
theorem c4_select_file_leaves_nav_unchanged (w : World) (m : Model) (it : Item)
    (e : RemoteEntry) (w1 : World) (derr : Option String)
    (hsel : m.items[m.selectedIndex]? = some it)
    (hraw : it.rawValue = some e)
    (hfile : e.isDir = false)
    (hdl : downloadFile w m.currentDir e.name = DlResult.ret w1 derr) :
    update w m (Msg.key "enter") =
      UpdateResult.ok w1 m
        [Effect.statusMessage (statusMessageStyle ("Downloading " ++ e.name)),
         Effect.toggleSpinner, Effect.incrPercent] := by
  simp [update, hsel, hraw, hfile, hdl]

/-- A regular-file entry fixture. -/
def entryNotes : RemoteEntry :=
  { name := "notes.txt", isDir := false, size := 2, modTime := "2022-01-01 00:00:00", mode := "-rw-r--r--" }

/-- A navigation state at /home/user with notes.txt selected. -/
def modelFile : Model :=
  { currentDir := "/home/user", items := [parentItem, decorateItem entryNotes], selectedIndex := 1 }

/-- A world in which /home/user/notes.txt holds two bytes. -/
def worldFile : World :=
  { client := clientNav
    remoteFile := fun p => if p = "/home/user/notes.txt" then some [104, 105] else none
    createOk := fun _ => true
    copyFault := none
    localFS := [] }

/-- Witness for C4: selecting notes.txt downloads it and returns the same
navigation state. -/
theorem c4_witness :
    update worldFile modelFile (Msg.key "enter") =
      UpdateResult.ok { worldFile with localFS := [("notes.txt", [104, 105])] } modelFile
        [Effect.statusMessage (statusMessageStyle ("Downloading " ++ entryNotes.name)),
         Effect.toggleSpinner, Effect.incrPercent] :=
  c4_select_file_leaves_nav_unchanged worldFile modelFile (decorateItem entryNotes)
    entryNotes { worldFile with localFS := [("notes.txt", [104, 105])] } none
    rfl rfl rfl rfl

/-- Claim C10: every produced item list is non-empty with the synthetic
".."-entry (nil underlying record) at index 0, and selecting an entry
with a nil record is handled by the same `moveDir ".."` transition as the
dedicated go-to-parent key, so the two handlers produce the same model. -/
theorem c10_parent_marker_and_equivalence (w : World) (m : Model) (it : Item)
    (hsel : m.items[m.selectedIndex]? = some it)
    (hraw : it.rawValue = none) :
    (∀ (sftpClient : SftpClient) (dirPath : String),
        createItemListModel dirPath sftpClient ≠ [] ∧
        (createItemListModel dirPath sftpClient).head? = some parentItem) ∧
    parentItem.rawValue = none ∧
    (update w m (Msg.key "enter")).modelOf = (update w m (Msg.key "backspace")).modelOf := by
  refine ⟨?_, rfl, ?_⟩
  · intro sftpClient dirPath
    exact ⟨by simp [createItemListModel], by simp [createItemListModel]⟩
  · rw [update_enter_parent w m it hsel hraw, update_backspace]
    rfl

/-- A navigation state with the synthetic parent entry selected. -/
def modelParentSel : Model :=
  { currentDir := "/home/user", items := [parentItem, decorateItem entryDocs], selectedIndex := 0 }

/-- Witness for C10 at the parent-selected fixture. -/
theorem c10_witness :
    (∀ (sftpClient : SftpClient) (dirPath : String),
        createItemListModel dirPath sftpClient ≠ [] ∧
        (createItemListModel dirPath sftpClient).head? = some parentItem) ∧
    parentItem.rawValue = none ∧
    (update worldNav modelParentSel (Msg.key "enter")).modelOf =
      (update worldNav modelParentSel (Msg.key "backspace")).modelOf :=
  c10_parent_marker_and_equivalence worldNav modelParentSel parentItem rfl rfl

/-! ## Error-handling claims -/

/-- A client whose root listing fails with permission denied, while the
listing of /a succeeds with one file. -/
def clientDenied : SftpClient :=
  { join := fun p q => p ++ "/" ++ q
    realPath := fun p => if p = "/a/.." then ("/", none) else (p, none)
    readDir := fun p =>
      if p = "/a" then ([entryNotes], none) else ([], some "permission denied") }

/-- The last-good navigation state at /a under the failing-root client. -/
def modelDenied : Model :=
  { currentDir := "/a", items := createItemListModel "/a" clientDenied, selectedIndex := 0 }

/-- Claim C1 (code evaluated at the failing input): the go-to-parent
transition whose root listing fails with permission denied does not stay
on the last-good state: the current directory is overwritten with the
resolved path and the items are replaced by the bare parent marker, a
half-updated state differing from the pre-transition one. -/
theorem c1_listing_failure_mutates_state :
    (clientDenied.readDir "/").2 = some "permission denied" ∧
    (moveDir clientDenied modelDenied "..").1.currentDir = "/" ∧
    (moveDir clientDenied modelDenied "..").1.items = [parentItem] ∧
    (moveDir clientDenied modelDenied "..").1 ≠ modelDenied := by
  exact ⟨by decide, by decide, by decide, by decide⟩

/-- Claim C7 counterexample: a failed local create is not surfaced in the
returned value of `downloadFile` — the create error goes to the
out-of-band handler and the returned error is the generic
invalid-argument error of the copy over the nil destination handle; a
failed remote open yields a panic of the copy over the nil source handle,
so neither failure class reaches the returned value. -/
theorem c7_counterexample :
    (osCreate { worldFile with createOk := fun _ => false } "notes.txt").2.2 =
      some "create local file failed" ∧
    downloadFile { worldFile with createOk := fun _ => false } "/home/user" "notes.txt" =
      DlResult.ret { worldFile with createOk := fun _ => false } (some "invalid argument") ∧
    (sftpOpen { worldFile with remoteFile := fun _ => none } "/home/user/notes.txt").2 =
      some "open remote file failed" ∧
    downloadFile { worldFile with remoteFile := fun _ => none } "/home/user" "notes.txt" =
      DlResult.panics
        { worldFile with remoteFile := fun _ => none, localFS := [("notes.txt", [])] } :=
  ⟨rfl, rfl, rfl, rfl⟩

/-- Claim C7 as amended: only the copy step determines the returned value
of `downloadFile`: when the remote open and the local create succeed, the
returned error is none exactly on a fault-free copy and the copy error on
an injected copy fault; open and create failures never appear in the
returned value. -/
theorem c7_amended_copy_error_only (w : World) (filePath fileName : String)
    (content : List Nat)
    (hopen : w.remoteFile (w.client.join filePath fileName) = some content)
    (hcreate : w.createOk fileName = true) :
    (w.copyFault = none →
      ∃ w1, downloadFile w filePath fileName = DlResult.ret w1 none) ∧
    (∀ k, w.copyFault = some k →
      ∃ w1, downloadFile w filePath fileName = DlResult.ret w1 (some "copy failed")) := by
  constructor
  · intro hfault
    refine ⟨{ w with localFS := setFile (setFile w.localFS fileName []) fileName content }, ?_⟩
    simp [downloadFile, sftpOpen, osCreate, ioCopy, filepathJoinDot, hopen, hcreate, hfault]
  · intro k hfault
    refine ⟨{ w with
      localFS := setFile (setFile w.localFS fileName []) fileName (content.take k) }, ?_⟩
    simp [downloadFile, sftpOpen, osCreate, ioCopy, filepathJoinDot, hopen, hcreate, hfault]

/-- Witness for the amended C7 at the two-byte file fixture. -/
theorem c7_witness :
    (worldFile.copyFault = none →
      ∃ w1, downloadFile worldFile "/home/user" "notes.txt" = DlResult.ret w1 none) ∧
    (∀ k, worldFile.copyFault = some k →
      ∃ w1, downloadFile worldFile "/home/user" "notes.txt" =
        DlResult.ret w1 (some "copy failed")) :=
  c7_amended_copy_error_only worldFile "/home/user" "notes.txt" [104, 105] rfl rfl

/-! ## Remote command and download content claims -/

/-- A remote host on which the command "mix" writes to both standard
output and standard error and exits zero. -/
def clientMix : SshClient :=
  { exec := fun c =>
      if c = "mix" then { stdout := "a\n", stderr := "b\n", exitCode := 0 }
      else { stdout := "", stderr := "", exitCode := 0 } }

/-- Claim C8 counterexample: `RunCommand` captures only standard output,
not the combined output: for a command that also writes to standard
error, the returned output omits the standard-error bytes, so it equals
neither interleaving of the two streams. -/
theorem c8_counterexample :
    (RunCommand "mix" clientMix).1 = ("a\n", none) ∧
    (clientMix.exec "mix").stderr = "b\n" ∧
    (RunCommand "mix" clientMix).1.1 ≠
      (clientMix.exec "mix").stdout ++ (clientMix.exec "mix").stderr ∧
    (RunCommand "mix" clientMix).1.1 ≠
      (clientMix.exec "mix").stderr ++ (clientMix.exec "mix").stdout := by
  exact ⟨rfl, rfl, by decide, by decide⟩

/-- Claim C8 as amended: `RunCommand` returns the command's standard
output (standard error is not captured) without requesting a
pseudo-terminal, with no error exactly when the remote exit code is zero;
in particular, running "echo hi" returns exactly "hi" followed by a
newline and no error. -/
theorem c8_amended_stdout_no_pty (client : SshClient) (cmd : String)
    (hecho : client.exec "echo hi" = { stdout := "hi\n", stderr := "", exitCode := 0 }) :
    (RunCommand cmd client).1.1 = (client.exec cmd).stdout ∧
    (RunCommand cmd client).2.ptyRequested = false ∧
    ((client.exec cmd).exitCode = 0 → (RunCommand cmd client).1.2 = none) ∧
    RunCommand "echo hi" client =
      (("hi\n", none), { ptyRequested := false, sessionClosed := true }) := by
  refine ⟨rfl, rfl, ?_, ?_⟩
  · intro hexit
    simp [RunCommand, sessionOutput, hexit]
  · simp [RunCommand, sessionOutput, hecho]

/-- A remote host on which "echo hi" prints "hi" and a newline. -/
def clientEcho : SshClient :=
  { exec := fun c =>
      if c = "echo hi" then { stdout := "hi\n", stderr := "", exitCode := 0 }
      else { stdout := "", stderr := "", exitCode := 1 } }

/-- Witness for the amended C8 at the echo fixture. -/
theorem c8_witness :
    (RunCommand "echo hi" clientEcho).1.1 = (clientEcho.exec "echo hi").stdout ∧
    (RunCommand "echo hi" clientEcho).2.ptyRequested = false ∧
    ((clientEcho.exec "echo hi").exitCode = 0 →
      (RunCommand "echo hi" clientEcho).1.2 = none) ∧
    RunCommand "echo hi" clientEcho =
      (("hi\n", none), { ptyRequested := false, sessionClosed := true }) :=
  c8_amended_stdout_no_pty clientEcho "echo hi" rfl

/-- Claim C9: a successful download (remote open succeeds, local create
succeeds, no copy fault) returns no error and writes, under the remote
file's base name in the current working directory, a local file whose
content equals the remote content byte for byte (hence of exactly its
size), whatever the destination file previously held. -/
theorem c9_download_content (w : World) (filePath fileName : String) (content : List Nat)
    (hopen : w.remoteFile (w.client.join filePath fileName) = some content)
    (hcreate : w.createOk fileName = true)
    (hfault : w.copyFault = none) :
    ∃ w1, downloadFile w filePath fileName = DlResult.ret w1 none ∧
      lookupFile w1.localFS (filepathJoinDot fileName) = some content ∧
      (lookupFile w1.localFS (filepathJoinDot fileName)).map List.length =
        some content.length := by
  refine ⟨{ w with localFS := setFile (setFile w.localFS fileName []) fileName content },
    ?_, ?_, ?_⟩
  · simp [downloadFile, sftpOpen, osCreate, ioCopy, filepathJoinDot, hopen, hcreate, hfault]
  · simp [filepathJoinDot, lookupFile_setFile]
  · simp [filepathJoinDot, lookupFile_setFile]

/-- A world in which the destination file already exists with other
content, to be overwritten. -/
def worldOverwrite : World :=
  { worldFile with localFS := [("notes.txt", [9, 9, 9, 9])] }

/-- Witness for C9: downloading the two-byte notes.txt overwrites the
four-byte local file of the same name with the remote content. -/
theorem c9_witness :
    ∃ w1, downloadFile worldOverwrite "/home/user" "notes.txt" = DlResult.ret w1 none ∧
      lookupFile w1.localFS (filepathJoinDot "notes.txt") = some [104, 105] ∧
      (lookupFile w1.localFS (filepathJoinDot "notes.txt")).map List.length = some 2 :=
  c9_download_content worldOverwrite "/home/user" "notes.txt" [104, 105] rfl rfl rfl

end Sssftp
